import Mathlib

/-!
Shallow embedding of the Arduino occupancy / room-light controller
(`room_light_controller.ino`) and proofs about its specification claims.

Modelling conventions:
* `millis()` timestamps are `Nat` values; the C `unsigned long` subtraction
  `a - b` (32-bit wrap-around) is modelled by `usub a b`.
* `personCount` and `config.maxPersons` are C `int`, modelled as `Int`.
* Active-low reads (`digitalRead(pin) == LOW`) are pre-converted: a `Bool`
  argument `true` means the sensor/button/switch is active.
* LCD writes, `Serial` prints and `delay` calls have no effect on the
  controller state; the observable side effects that matter to the claims
  (count events, relay line, EEPROM writes) are modelled explicitly:
  `showStatus`/`showError` branches are recorded as emitted events, the
  relay line is the `relay : Bool` field, and `saveConfiguration()` copies
  `config` into the `persisted` field.
* `checkSensorHealth` only mutates the stuck-latch flags and the LCD; no
  claim in this development reads them, so the loop model omits that call.
-/

/-- 32-bit unsigned subtraction, the semantics of `currentTime - t0` on
C `unsigned long` values (modulo 2^32). -/
def usub (a b : Nat) : Nat := (a + 2 ^ 32 - b) % 2 ^ 32

theorem usub_eq_sub (a b : Nat) (hba : b ≤ a) (hlt : a - b < 2 ^ 32) :
    usub a b = a - b := by
  unfold usub
  have h1 : a + 2 ^ 32 - b = (a - b) + 2 ^ 32 := by omega
  rw [h1, Nat.add_mod_right]
  exact Nat.mod_eq_of_lt hlt

/-- The persisted configuration record (`struct Config`). -/
structure Config where
  timeout : Nat
  debounceDelay : Nat
  btnDebounce : Nat
  maxPersons : Int
  emergencyOverride : Bool
deriving DecidableEq

/-- Default configuration written by `loadConfiguration()` on first run. -/
def defaultConfig : Config :=
  { timeout := 5000
  , debounceDelay := 200
  , btnDebounce := 300
  , maxPersons := 99
  , emergencyOverride := false }

/-- `enum SensorState` of the direction-detection state machine. -/
inductive SensorState where
  | IDLE
  | IR1_DETECTED
  | IR2_DETECTED
  | ENTRY_DETECTED
  | EXIT_DETECTED
deriving DecidableEq

/-- The state touched by `handleDirectionDetection`. -/
structure DirState where
  personCount : Int
  currentState : SensorState
  stateTime : Nat
deriving DecidableEq

/-- Observable events of the direction resolver: the `showStatus("IN")` /
`showStatus("OUT")` / `showError("MAX PERSONS")` branches. -/
inductive DirEvent where
  | PersonEntered
  | PersonExited
  | CapacityExceeded
deriving DecidableEq

/-- `handleDirectionDetection(ir1State, ir2State, currentTime)`: the
direction-detection state machine, returning the new state and the event
emitted (if any). -/
def handleDirectionDetection (cfg : Config) (ir1State ir2State : Bool)
    (currentTime : Nat) (s : DirState) : DirState × Option DirEvent :=
  match s.currentState with
  | SensorState.IDLE =>
      if ir1State then
        ({ s with currentState := SensorState.IR1_DETECTED, stateTime := currentTime }, none)
      else if ir2State then
        ({ s with currentState := SensorState.IR2_DETECTED, stateTime := currentTime }, none)
      else (s, none)
  | SensorState.IR1_DETECTED =>
      if ir2State then
        if usub currentTime s.stateTime < cfg.timeout then
          if s.personCount < cfg.maxPersons then
            ({ s with personCount := s.personCount + 1,
                      currentState := SensorState.IDLE }, some DirEvent.PersonEntered)
          else
            ({ s with currentState := SensorState.IDLE }, some DirEvent.CapacityExceeded)
        else
          ({ s with currentState := SensorState.IDLE }, none)
      else if usub currentTime s.stateTime > cfg.timeout then
        ({ s with currentState := SensorState.IDLE }, none)
      else (s, none)
  | SensorState.IR2_DETECTED =>
      if ir1State then
        if usub currentTime s.stateTime < cfg.timeout then
          if s.personCount > 0 then
            ({ s with personCount := s.personCount - 1,
                      currentState := SensorState.IDLE }, some DirEvent.PersonExited)
          else
            ({ s with currentState := SensorState.IDLE }, none)
        else
          ({ s with currentState := SensorState.IDLE }, none)
      else if usub currentTime s.stateTime > cfg.timeout then
        ({ s with currentState := SensorState.IDLE }, none)
      else (s, none)
  | SensorState.ENTRY_DETECTED => (s, none)
  | SensorState.EXIT_DETECTED => (s, none)

/-- `updateLight()`: the actuator policy. Result `true` means the relay is
driven HIGH (light on). -/
def updateLight (emergencyOverride : Bool) (personCount : Int) : Bool :=
  if emergencyOverride then true
  else if personCount > 0 then true
  else false

/-- The state touched by `handleButtons` (the `static` locals
`lastPlusTime`, `lastResetTime` plus the count). -/
structure BtnState where
  personCount : Int
  lastPlusTime : Nat
  lastResetTime : Nat
deriving DecidableEq

/-- Observable events of `handleButtons`: the `showStatus("MANUAL")` /
`showError("MAX PERSONS")` / `showStatus("RESET")` branches. -/
inductive BtnEvent where
  | ManualIncrement
  | CapacityExceeded
  | ManualReset
deriving DecidableEq

/-- `handleButtons(plusBtnState, resetBtnState, currentTime)`. -/
def handleButtons (cfg : Config) (plusBtnState resetBtnState : Bool)
    (currentTime : Nat) (s : BtnState) : BtnState × List BtnEvent :=
  let p :=
    if plusBtnState ∧ usub currentTime s.lastPlusTime > cfg.btnDebounce then
      if s.personCount < cfg.maxPersons then
        ({ s with personCount := s.personCount + 1, lastPlusTime := currentTime },
         [BtnEvent.ManualIncrement])
      else
        ({ s with lastPlusTime := currentTime }, [BtnEvent.CapacityExceeded])
    else (s, [])
  if resetBtnState ∧ usub currentTime p.1.lastResetTime > cfg.btnDebounce then
    ({ p.1 with personCount := 1, lastResetTime := currentTime },
     p.2 ++ [BtnEvent.ManualReset])
  else p

/-- The whole-controller state: the globals of the sketch together with the
`static` locals of `checkConfigurationMode` (`bothPressed`,
`pressStartTime`), `handleConfigurationMode` (`exitPressed`,
`exitPressTime`), `handleButtons` (`lastPlusTime`, `lastResetTime`), the
relay output line and the EEPROM image (`persisted`). -/
structure SysState where
  config : Config
  personCount : Int
  currentState : SensorState
  stateTime : Nat
  lastEmergencyCheck : Nat
  configMode : Bool
  configModeEntered : Bool
  configStartTime : Nat
  configParam : Nat
  lastResetBtnTime : Nat
  lastPlusBtnTime : Nat
  bothPressed : Bool
  pressStartTime : Nat
  exitPressed : Bool
  exitPressTime : Nat
  lastPlusTime : Nat
  lastResetTime : Nat
  relay : Bool
  persisted : Config
deriving DecidableEq

/-- `adjustConfigValue()`: bump the currently edited parameter by its step,
wrapping past its maximum back to its minimum. -/
def adjustConfigValue (configParam : Nat) (c : Config) : Config :=
  if configParam = 0 then
    let t := c.timeout + 100
    { c with timeout := if t > 10000 then 100 else t }
  else if configParam = 1 then
    let d := c.debounceDelay + 50
    { c with debounceDelay := if d > 1000 then 50 else d }
  else if configParam = 2 then
    let m := c.maxPersons + 1
    { c with maxPersons := if m > 200 then 1 else m }
  else c

/-- `checkConfigurationMode(currentTime)`: detect the 3 s dual long-press
that enters configuration mode. -/
def checkConfigurationMode (plusBtnState resetBtnState : Bool)
    (currentTime : Nat) (s : SysState) : SysState :=
  if plusBtnState ∧ resetBtnState then
    if ¬ s.bothPressed then
      { s with pressStartTime := currentTime, bothPressed := true }
    else if usub currentTime s.pressStartTime > 3000 then
      { s with configMode := true, configModeEntered := true,
               configStartTime := currentTime, configParam := 0 }
    else s
  else { s with bothPressed := false }

/-- The part of `handleConfigurationMode` after the manual-exit check:
30 s session timeout, parameter cycling with the reset button, value
adjustment (with immediate `saveConfiguration()`) with the +1 button. -/
def configTail (plusBtnState resetBtnState : Bool) (currentTime : Nat)
    (s : SysState) : SysState :=
  if usub currentTime s.configStartTime > 30000 then
    { s with configMode := false, persisted := s.config }
  else
    let s1 :=
      if resetBtnState ∧ usub currentTime s.lastResetBtnTime > s.config.btnDebounce then
        { s with configParam := (s.configParam + 1) % 3, lastResetBtnTime := currentTime }
      else s
    if plusBtnState ∧ usub currentTime s1.lastPlusBtnTime > s1.config.btnDebounce then
      { s1 with config := adjustConfigValue s1.configParam s1.config,
                persisted := adjustConfigValue s1.configParam s1.config,
                lastPlusBtnTime := currentTime }
    else s1

/-- `handleConfigurationMode(currentTime)`: manual dual-press exit
(duration in `[500, 2000)` ms, with `saveConfiguration()`), then the rest
of the session logic (`configTail`). -/
def handleConfigurationMode (plusBtnState resetBtnState : Bool)
    (currentTime : Nat) (s : SysState) : SysState :=
  if plusBtnState ∧ resetBtnState then
    if ¬ s.exitPressed then
      configTail plusBtnState resetBtnState currentTime
        { s with exitPressTime := currentTime, exitPressed := true }
    else if 500 ≤ usub currentTime s.exitPressTime ∧
            usub currentTime s.exitPressTime < 2000 then
      { s with configMode := false, persisted := s.config }
    else configTail plusBtnState resetBtnState currentTime s
  else configTail plusBtnState resetBtnState currentTime { s with exitPressed := false }

/-- `checkEmergencyOverride(currentTime)`: polled at a 100 ms cadence;
while the override input reads active, force the relay HIGH and set
`config.emergencyOverride`; on its falling edge recompute the relay with
`updateLight()`. -/
def checkEmergencyOverride (emergencyState : Bool) (currentTime : Nat)
    (s : SysState) : SysState :=
  if usub currentTime s.lastEmergencyCheck > 100 then
    if emergencyState then
      { s with config := { s.config with emergencyOverride := true },
               relay := true, lastEmergencyCheck := currentTime }
    else if s.config.emergencyOverride then
      { s with config := { s.config with emergencyOverride := false },
               relay := updateLight false s.personCount,
               lastEmergencyCheck := currentTime }
    else { s with lastEmergencyCheck := currentTime }
  else s

/-- One iteration of `loop()`. The five `Bool` inputs are the active-low
reads of IR1, IR2, the +1 button, the reset button and the emergency
switch; `currentTime` is `millis()`. In the source, `handleDirectionDetection`
and `handleButtons` call `updateLight()` exactly in the branches that emit
`PersonEntered` / `PersonExited` / `ManualIncrement` / `ManualReset`, which
is reproduced here through the returned events. -/
def loopStep (ir1Raw ir2Raw plusRaw resetRaw emergencyRaw : Bool)
    (currentTime : Nat) (s0 : SysState) : SysState :=
  let s := checkConfigurationMode plusRaw resetRaw currentTime s0
  if s.configMode then
    handleConfigurationMode plusRaw resetRaw currentTime s
  else
    let s := checkEmergencyOverride emergencyRaw currentTime s
    let dres := handleDirectionDetection s.config ir1Raw ir2Raw currentTime
      { personCount := s.personCount, currentState := s.currentState,
        stateTime := s.stateTime }
    let s :=
      { s with personCount := dres.1.personCount,
               currentState := dres.1.currentState,
               stateTime := dres.1.stateTime,
               relay := if dres.2 = some DirEvent.PersonEntered ∨
                           dres.2 = some DirEvent.PersonExited then
                          updateLight s.config.emergencyOverride dres.1.personCount
                        else s.relay }
    let bres := handleButtons s.config plusRaw resetRaw currentTime
      { personCount := s.personCount, lastPlusTime := s.lastPlusTime,
        lastResetTime := s.lastResetTime }
    { s with personCount := bres.1.personCount,
             lastPlusTime := bres.1.lastPlusTime,
             lastResetTime := bres.1.lastResetTime,
             relay := if BtnEvent.ManualIncrement ∈ bres.2 ∨
                         BtnEvent.ManualReset ∈ bres.2 then
                        updateLight s.config.emergencyOverride bres.1.personCount
                      else s.relay }

/-- Controller state right after `setup()`: globals at their initialisers,
`static` locals zero-initialised, relay driven LOW, EEPROM holding the
default configuration. -/
def initState : SysState :=
  { config := defaultConfig
  , personCount := 0
  , currentState := SensorState.IDLE
  , stateTime := 0
  , lastEmergencyCheck := 0
  , configMode := false
  , configModeEntered := false
  , configStartTime := 0
  , configParam := 0
  , lastResetBtnTime := 0
  , lastPlusBtnTime := 0
  , bothPressed := false
  , pressStartTime := 0
  , exitPressed := false
  , exitPressTime := 0
  , lastPlusTime := 0
  , lastResetTime := 0
  , relay := false
  , persisted := defaultConfig }

/-- Active configuration session with `personCount = 150` and
`maxPersons = 200`, currently editing parameter 2 (MaxPersons); used to
exhibit the C5 violation. -/
def c5State : SysState :=
  { initState with configMode := true, configParam := 2, personCount := 150,
                   config := { defaultConfig with maxPersons := 200 } }

/-- Active configuration session with an ongoing dual press latched at
`exitPressTime = 0`; used for the C6 exit-gesture scenario. -/
def c6State : SysState :=
  { initState with configMode := true, exitPressed := true }

/-- Active configuration session (entered at t = 0) with the emergency
switch about to be read; used to exhibit the C4 violation. -/
def c4State : SysState :=
  { initState with configMode := true }

/-- Loop iterations of the C1 trace: raw sensor samples
(ir1, ir2) = (T,F), (F,T), (F,F), (F,T) at t = 100, 110, 120, 130. -/
def c1Tick1 : SysState := loopStep true false false false false 100 initState

def c1Tick2 : SysState := loopStep false true false false false 110 c1Tick1

def c1Tick3 : SysState := loopStep false false false false false 120 c1Tick2

def c1Tick4 : SysState := loopStep false true false false false 130 c1Tick3

/-! ## Helper lemmas -/

theorem dir_idle_event (cfg : Config) (now : Nat) (d : DirState) :
    (handleDirectionDetection cfg false false now d).2 = none := by
  rcases d with ⟨pc, cs, st⟩
  cases cs <;> simp [handleDirectionDetection] <;> split_ifs <;> simp

theorem dir_idle_count (cfg : Config) (now : Nat) (d : DirState) :
    (handleDirectionDetection cfg false false now d).1.personCount = d.personCount := by
  rcases d with ⟨pc, cs, st⟩
  cases cs <;> simp [handleDirectionDetection] <;> split_ifs <;> simp

theorem buttons_idle_inputs (cfg : Config) (now : Nat) (b : BtnState) :
    handleButtons cfg false false now b = (b, []) := by
  simp [handleButtons]

theorem configTail_keeps_mode (p r : Bool) (now : Nat) (s : SysState)
    (h : ¬ (usub now s.configStartTime > 30000)) :
    (configTail p r now s).configMode = s.configMode := by
  unfold configTail
  simp only [h, if_false]
  split_ifs <;> rfl

/-! ## Claim theorems -/

/-- Claim C3: the actuator policy is a pure function of
`(emergencyOverride, personCount)`: ON when the override is set, otherwise
ON exactly when the count is positive and OFF at zero; calling it twice on
the same inputs gives the same answer. -/
theorem C3_actuator_policy (e : Bool) (c : Int) :
    (updateLight e c = true ↔ (e = true ∨ 0 < c)) ∧
    updateLight e c = updateLight e c := by
  refine ⟨?_, rfl⟩
  cases e <;> simp [updateLight]

/-- Claim C2: in state `IR1_DETECTED` with the exit sensor active inside
the timeout window, a count below `maxPersons` is incremented by one with
`PersonEntered` emitted, a count at `maxPersons` is left unchanged with
`CapacityExceeded` emitted, and the resolver returns to `IDLE` either
way. -/
theorem C2_entry_pairing (cfg : Config) (ir1 : Bool) (s : DirState) (now : Nat)
    (hst : s.currentState = SensorState.IR1_DETECTED)
    (hwin : usub now s.stateTime < cfg.timeout) :
    (s.personCount < cfg.maxPersons →
       handleDirectionDetection cfg ir1 true now s =
         ({ s with personCount := s.personCount + 1,
                   currentState := SensorState.IDLE }, some DirEvent.PersonEntered)) ∧
    (s.personCount = cfg.maxPersons →
       handleDirectionDetection cfg ir1 true now s =
         ({ s with currentState := SensorState.IDLE },
          some DirEvent.CapacityExceeded)) := by
  unfold handleDirectionDetection
  rcases s with ⟨pc, cs, st⟩
  simp only at hst
  subst hst
  constructor
  · intro hlt
    simp [hwin, hlt]
  · intro heq
    have hpc : pc = cfg.maxPersons := heq
    simp [hwin, hpc]

/-- Claim C8: in state `IR2_DETECTED` with the entry sensor active inside
the timeout window, a positive count is decremented by one with
`PersonExited` emitted, a zero count is a silent no-op with no event, and
the resolver returns to `IDLE` either way. -/
theorem C8_exit_pairing (cfg : Config) (ir2 : Bool) (s : DirState) (now : Nat)
    (hst : s.currentState = SensorState.IR2_DETECTED)
    (hwin : usub now s.stateTime < cfg.timeout) :
    (0 < s.personCount →
       handleDirectionDetection cfg true ir2 now s =
         ({ s with personCount := s.personCount - 1,
                   currentState := SensorState.IDLE }, some DirEvent.PersonExited)) ∧
    (s.personCount = 0 →
       handleDirectionDetection cfg true ir2 now s =
         ({ s with currentState := SensorState.IDLE }, none)) := by
  unfold handleDirectionDetection
  rcases s with ⟨pc, cs, st⟩
  simp only at hst
  subst hst
  constructor
  · intro hpos
    simp [hwin, hpos]
  · intro heq
    have hpc : pc = 0 := heq
    simp [hwin, hpc]

/-- Claim C7 counterexample: with the default timeout of 5000 ms, state
`IR1_DETECTED` entered at t0 = 0 and neither sensor active at now = 5000
(`now - t0` exactly equal to `timeout`), the resolver does NOT return to
`IDLE` — the code requires `now - t0 > timeout` strictly. -/
theorem C7_counterexample :
    usub 5000 0 ≥ defaultConfig.timeout ∧
    ¬ ((handleDirectionDetection defaultConfig false false 5000
        { personCount := 0, currentState := SensorState.IR1_DETECTED,
          stateTime := 0 }).1.currentState = SensorState.IDLE) := by decide

/-- Claim C7 (amended): in a `FirstEdge` state with the pairing sensor not
active, the resolver transitions to `IDLE` with no event and the count
unchanged exactly when `now - t0` strictly exceeds `timeout`; at
`now - t0 = timeout` it stays in the `FirstEdge` state. -/
theorem C7_timeout_strict (cfg : Config) (ir1 ir2 : Bool) (s : DirState) (now : Nat)
    (hs : (s.currentState = SensorState.IR1_DETECTED ∧ ir2 = false) ∨
          (s.currentState = SensorState.IR2_DETECTED ∧ ir1 = false)) :
    (usub now s.stateTime > cfg.timeout →
       handleDirectionDetection cfg ir1 ir2 now s =
         ({ s with currentState := SensorState.IDLE }, none)) ∧
    (usub now s.stateTime = cfg.timeout →
       handleDirectionDetection cfg ir1 ir2 now s = (s, none)) := by
  rcases s with ⟨pc, cs, st⟩
  rcases hs with ⟨hcs, hsen⟩ | ⟨hcs, hsen⟩ <;>
    simp only at hcs <;> subst hcs <;> subst hsen <;>
    constructor <;> intro h <;> simp [handleDirectionDetection, h]

/-- Claim C7 witness: concrete instance of the amended theorem. -/
theorem C7_timeout_strict_witness :
    handleDirectionDetection defaultConfig false false 5001
      { personCount := 0, currentState := SensorState.IR1_DETECTED, stateTime := 0 } =
      ({ personCount := 0, currentState := SensorState.IDLE, stateTime := 0 }, none) := by
  have h := C7_timeout_strict defaultConfig false false
    { personCount := 0, currentState := SensorState.IR1_DETECTED, stateTime := 0 }
    5001 (Or.inl ⟨rfl, rfl⟩)
  exact h.1 (by decide)

/-- Claim C2 witness: entry at t0 = 0 paired by the exit sensor at
t = 300 with the default configuration and count 0 increments the count
and emits `PersonEntered`. -/
theorem C2_entry_pairing_witness :
    handleDirectionDetection defaultConfig false true 300
      { personCount := 0, currentState := SensorState.IR1_DETECTED, stateTime := 0 } =
      ({ personCount := 0 + 1, currentState := SensorState.IDLE, stateTime := 0 },
       some DirEvent.PersonEntered) := by
  have h := C2_entry_pairing defaultConfig false
    { personCount := 0, currentState := SensorState.IR1_DETECTED, stateTime := 0 }
    300 rfl (by decide)
  exact h.1 (by decide)

/-- Claim C8 witness: an exit-first edge at t0 = 0 paired by the entry
sensor at t = 300 with count 1 decrements to 0 and emits `PersonExited`. -/
theorem C8_exit_pairing_witness :
    handleDirectionDetection defaultConfig true false 300
      { personCount := 1, currentState := SensorState.IR2_DETECTED, stateTime := 0 } =
      ({ personCount := 1 - 1, currentState := SensorState.IDLE, stateTime := 0 },
       some DirEvent.PersonExited) := by
  have h := C8_exit_pairing defaultConfig false
    { personCount := 1, currentState := SensorState.IR2_DETECTED, stateTime := 0 }
    300 rfl (by decide)
  exact h.1 (by decide)

/-- Claim C5 counterexample: in a live configuration session with
`personCount = 150 ≤ maxPersons = 200`, one +1 press on the MaxPersons
parameter wraps `maxPersons` from 200 to 1 and leaves
`personCount = 150 > maxPersons`, so `personCount ≤ Config.maxPersons`
does not survive live adjustment of `maxPersons`. -/
theorem C5_counterexample :
    (0 ≤ c5State.personCount ∧ c5State.personCount ≤ c5State.config.maxPersons) ∧
    ¬ ((handleConfigurationMode true false 1000 c5State).personCount ≤
       (handleConfigurationMode true false 1000 c5State).config.maxPersons) := by decide

/-- Claim C5 (amended): `0 ≤ personCount ≤ maxPersons` is preserved by the
direction resolver and by the manual +1 / reset controls (for any
`maxPersons ≥ 1`), but it is not an invariant across live `maxPersons`
adjustment in a configuration session. -/
theorem C5_count_bounds (cfg : Config) (ir1 ir2 plus reset : Bool) (now : Nat)
    (d : DirState) (b : BtnState)
    (hmax : 1 ≤ cfg.maxPersons)
    (hd0 : 0 ≤ d.personCount) (hd1 : d.personCount ≤ cfg.maxPersons)
    (hb0 : 0 ≤ b.personCount) (hb1 : b.personCount ≤ cfg.maxPersons) :
    (0 ≤ (handleDirectionDetection cfg ir1 ir2 now d).1.personCount ∧
     (handleDirectionDetection cfg ir1 ir2 now d).1.personCount ≤ cfg.maxPersons) ∧
    (0 ≤ (handleButtons cfg plus reset now b).1.personCount ∧
     (handleButtons cfg plus reset now b).1.personCount ≤ cfg.maxPersons) := by
  constructor
  · rcases d with ⟨pc, cs, st⟩
    have h1 : (0:Int) ≤ pc := hd0
    have h2 : pc ≤ cfg.maxPersons := hd1
    cases cs <;> simp [handleDirectionDetection] <;> (try split_ifs) <;> (try simp) <;> omega
  · rcases b with ⟨pc, lp, lr⟩
    have h1 : (0:Int) ≤ pc := hb0
    have h2 : pc ≤ cfg.maxPersons := hb1
    simp only [handleButtons]
    split_ifs <;> (try simp) <;> omega

/-- Claim C5 witness: concrete instance of the amended preservation
theorem (entry pairing at count 0; simultaneous +1 and reset presses). -/
theorem C5_count_bounds_witness :
    (0 ≤ (handleDirectionDetection defaultConfig true false 400
        { personCount := 0, currentState := SensorState.IDLE, stateTime := 0 }).1.personCount ∧
     (handleDirectionDetection defaultConfig true false 400
        { personCount := 0, currentState := SensorState.IDLE, stateTime := 0 }).1.personCount ≤
       defaultConfig.maxPersons) ∧
    (0 ≤ (handleButtons defaultConfig true true 400
        { personCount := 0, lastPlusTime := 0, lastResetTime := 0 }).1.personCount ∧
     (handleButtons defaultConfig true true 400
        { personCount := 0, lastPlusTime := 0, lastResetTime := 0 }).1.personCount ≤
       defaultConfig.maxPersons) :=
  C5_count_bounds defaultConfig true false true true 400
    { personCount := 0, currentState := SensorState.IDLE, stateTime := 0 }
    { personCount := 0, lastPlusTime := 0, lastResetTime := 0 }
    (by decide) (by decide) (by decide) (by decide) (by decide)

/-- Claim C9: a debounced +1 press inside an active session (no exit
gesture, 30 s timeout not elapsed) replaces `config` with
`adjustConfigValue` applied to the edited parameter and persists the
result immediately; `adjustConfigValue` steps Timeout by +100 wrapping
past 10000 to 100, Debounce by +50 wrapping past 1000 to 50, and
MaxPersons by +1 wrapping past 200 to 1. -/
theorem C9_config_adjust (s : SysState) (now : Nat)
    (h30 : ¬ (usub now s.configStartTime > 30000))
    (hdb : usub now s.lastPlusBtnTime > s.config.btnDebounce) :
    (handleConfigurationMode true false now s).config =
      adjustConfigValue s.configParam s.config ∧
    (handleConfigurationMode true false now s).persisted =
      adjustConfigValue s.configParam s.config ∧
    (∀ c : Config,
      (adjustConfigValue 0 c).timeout =
        (if c.timeout + 100 > 10000 then 100 else c.timeout + 100) ∧
      (adjustConfigValue 1 c).debounceDelay =
        (if c.debounceDelay + 50 > 1000 then 50 else c.debounceDelay + 50) ∧
      (adjustConfigValue 2 c).maxPersons =
        (if c.maxPersons + 1 > 200 then 1 else c.maxPersons + 1)) := by
  refine ⟨?_, ?_, ?_⟩
  · simp [handleConfigurationMode, configTail, h30, hdb]
  · simp [handleConfigurationMode, configTail, h30, hdb]
  · intro c
    refine ⟨?_, ?_, ?_⟩ <;> simp [adjustConfigValue]

/-- Claim C9 witness: in the concrete session `c6State` (editing Timeout)
a +1 press at t = 1000 bumps the timeout from 5000 to 5100 and persists
it. -/
theorem C9_config_adjust_witness :
    (handleConfigurationMode true false 1000 c6State).config =
      adjustConfigValue c6State.configParam c6State.config ∧
    (handleConfigurationMode true false 1000 c6State).persisted =
      adjustConfigValue c6State.configParam c6State.config := by
  have h := C9_config_adjust c6State 1000 (by decide) (by decide)
  exact ⟨h.1, h.2.1⟩

/-- Claim C6: with a dual press latched since `exitPressTime`, the session
exits by gesture exactly when the held duration is in `[500, 2000)` ms
(persisting the configuration); a shorter or longer hold leaves the
session active (when the 30 s timeout has not elapsed); and with no
gesture the session exits once more than 30000 ms have passed since entry,
also persisting the configuration. -/
theorem C6_config_exit (s : SysState) (now : Nat)
    (hmode : s.configMode = true) (hheld : s.exitPressed = true) :
    ((500 ≤ usub now s.exitPressTime ∧ usub now s.exitPressTime < 2000) →
       (handleConfigurationMode true true now s).configMode = false ∧
       (handleConfigurationMode true true now s).persisted = s.config) ∧
    (usub now s.exitPressTime < 500 → ¬ (usub now s.configStartTime > 30000) →
       (handleConfigurationMode true true now s).configMode = true) ∧
    (2000 ≤ usub now s.exitPressTime → ¬ (usub now s.configStartTime > 30000) →
       (handleConfigurationMode true true now s).configMode = true) ∧
    (usub now s.configStartTime > 30000 →
       (handleConfigurationMode false false now s).configMode = false ∧
       (handleConfigurationMode false false now s).persisted = s.config) := by
  refine ⟨?_, ?_, ?_, ?_⟩
  · intro hwin
    simp [handleConfigurationMode, hheld, hwin.1, hwin.2]
  · intro hlt h30
    have hnot : ¬ (500 ≤ usub now s.exitPressTime ∧ usub now s.exitPressTime < 2000) := by
      omega
    have hcfgt : handleConfigurationMode true true now s = configTail true true now s := by
      simp [handleConfigurationMode, hheld, hnot]
    rw [hcfgt, configTail_keeps_mode true true now s h30, hmode]
  · intro hge h30
    have hnot : ¬ (500 ≤ usub now s.exitPressTime ∧ usub now s.exitPressTime < 2000) := by
      omega
    have hcfgt : handleConfigurationMode true true now s = configTail true true now s := by
      simp [handleConfigurationMode, hheld, hnot]
    rw [hcfgt, configTail_keeps_mode true true now s h30, hmode]
  · intro h30
    constructor <;> simp [handleConfigurationMode, configTail, h30]

/-- Claim C6 witness: dual press latched at t = 0, evaluated at t = 1200
(inside the 500 to 2000 ms window) exits the session and persists the
configuration. -/
theorem C6_config_exit_witness :
    (handleConfigurationMode true true 1200 c6State).configMode = false ∧
    (handleConfigurationMode true true 1200 c6State).persisted = c6State.config := by
  have h := C6_config_exit c6State 1200 rfl rfl
  exact h.1 (by decide)

/-- Claim C10: outside a session the manual controls are level-triggered
with a time-based rate limit: with the +1 button held across two calls
separated by more than `btnDebounce`, the count increments at both calls;
with the reset button held likewise, the count is set to 1 at both
calls. -/
theorem C10_buttons_repeat (cfg : Config) (b : BtnState) (t1 t2 : Nat)
    (hp1 : usub t1 b.lastPlusTime > cfg.btnDebounce)
    (h12 : usub t2 t1 > cfg.btnDebounce)
    (hcap : b.personCount + 1 < cfg.maxPersons)
    (hr1 : usub t1 b.lastResetTime > cfg.btnDebounce) :
    (handleButtons cfg true false t1 b).1.personCount = b.personCount + 1 ∧
    (handleButtons cfg true false t1 b).2 = [BtnEvent.ManualIncrement] ∧
    (handleButtons cfg true false t2
       (handleButtons cfg true false t1 b).1).1.personCount = b.personCount + 2 ∧
    (handleButtons cfg true false t2
       (handleButtons cfg true false t1 b).1).2 = [BtnEvent.ManualIncrement] ∧
    (handleButtons cfg false true t1 b).1.personCount = 1 ∧
    (handleButtons cfg false true t1 b).2 = [BtnEvent.ManualReset] ∧
    (handleButtons cfg false true t2
       (handleButtons cfg false true t1 b).1).1.personCount = 1 ∧
    (handleButtons cfg false true t2
       (handleButtons cfg false true t1 b).1).2 = [BtnEvent.ManualReset] := by
  have hlt : b.personCount < cfg.maxPersons := by omega
  have h1 : handleButtons cfg true false t1 b =
      ({ b with personCount := b.personCount + 1, lastPlusTime := t1 },
       [BtnEvent.ManualIncrement]) := by
    simp [handleButtons, hp1, hlt]
  have h2 : handleButtons cfg true false t2
      { b with personCount := b.personCount + 1, lastPlusTime := t1 } =
      ({ b with personCount := b.personCount + 1 + 1, lastPlusTime := t2 },
       [BtnEvent.ManualIncrement]) := by
    simp [handleButtons, h12, hcap]
  have h3 : handleButtons cfg false true t1 b =
      ({ b with personCount := 1, lastResetTime := t1 },
       [BtnEvent.ManualReset]) := by
    simp [handleButtons, hr1]
  have h4 : handleButtons cfg false true t2
      { b with personCount := 1, lastResetTime := t1 } =
      ({ b with personCount := 1, lastResetTime := t2 },
       [BtnEvent.ManualReset]) := by
    simp [handleButtons, h12]
  refine ⟨?_, ?_, ?_, ?_, ?_, ?_, ?_, ?_⟩ <;>
    simp [h1, h2, h3, h4]
  omega

/-- Claim C10 witness: default configuration, buttons held at t = 400 and
t = 800 (400 ms apart, more than `btnDebounce = 300`): the +1 button
increments twice and the reset button sets the count to 1 twice. -/
theorem C10_buttons_repeat_witness :
    (handleButtons defaultConfig true false 800
       (handleButtons defaultConfig true false 400
         { personCount := 0, lastPlusTime := 0, lastResetTime := 0 }).1).1.personCount
      = 0 + 2 ∧
    (handleButtons defaultConfig false true 800
       (handleButtons defaultConfig false true 400
         { personCount := 0, lastPlusTime := 0, lastResetTime := 0 }).1).1.personCount
      = 1 := by
  have h := C10_buttons_repeat defaultConfig
    { personCount := 0, lastPlusTime := 0, lastResetTime := 0 } 400 800
    (by decide) (by decide) (by decide) (by decide)
  exact ⟨h.2.2.1, h.2.2.2.2.2.2.1⟩

/-- Claim C4 counterexample: with a configuration session active
(`c4State`), the emergency input reading active at t = 200 (its 100 ms
cadence long due) neither sets `emergencyOverride` nor forces the relay
ON: `loop()` returns after `handleConfigurationMode` before
`checkEmergencyOverride` is ever called. -/
theorem C4_counterexample :
    c4State.configMode = true ∧
    usub 200 c4State.lastEmergencyCheck > 100 ∧
    (loopStep false false false false true 200 c4State).config.emergencyOverride = false ∧
    (loopStep false false false false true 200 c4State).relay = false := by decide

/-- Claim C4 (amended): outside a configuration session, when the 100 ms
cadence is due, an active emergency input sets `emergencyOverride` and
forces the relay ON for the whole iteration, and on the falling edge
`emergencyOverride` is cleared and the relay is recomputed from the
current occupancy; while a configuration session is active the emergency
input is not evaluated at all. -/
theorem C4_emergency_arbitration (s : SysState) (now : Nat)
    (hmode : s.configMode = false)
    (hdue : usub now s.lastEmergencyCheck > 100) :
    ((loopStep false false false false true now s).config.emergencyOverride = true ∧
     (loopStep false false false false true now s).relay = true) ∧
    (s.config.emergencyOverride = true →
       (loopStep false false false false false now s).config.emergencyOverride = false ∧
       (loopStep false false false false false now s).relay =
         updateLight false s.personCount) := by
  constructor
  · simp [loopStep, checkConfigurationMode, checkEmergencyOverride, hmode, hdue,
          dir_idle_event, dir_idle_count, buttons_idle_inputs]
  · intro hov
    simp [loopStep, checkConfigurationMode, checkEmergencyOverride, hmode, hdue, hov,
          dir_idle_event, dir_idle_count, buttons_idle_inputs]

/-- Claim C4 witness: from the freshly initialised state, an active
emergency input at t = 200 sets the override and forces the relay ON. -/
theorem C4_emergency_arbitration_witness :
    (loopStep false false false false true 200 initState).config.emergencyOverride = true ∧
    (loopStep false false false false true 200 initState).relay = true := by
  have h := C4_emergency_arbitration initState 200 rfl (by decide)
  exact h.1

/-- Claim C1: the sketch passes the raw sensor reads of each iteration
straight to the direction resolver; `config.debounceDelay` gates nothing.
On the trace (ir1, ir2) = (T,F), (F,T), (F,F), (F,T) at t = 100, 110, 120,
130 with the default `debounceDelay = 200`, the ir2 sample at t = 110
completes a pairing (its qualified transition) and the ir2 sample at
t = 130 — only 20 ms later, far less than `debounceDelay` — again reaches
and re-arms the resolver. -/
theorem C1_raw_sensor_reaches_resolver :
    defaultConfig.debounceDelay = 200 ∧
    130 - 110 < defaultConfig.debounceDelay ∧
    c1Tick1.currentState = SensorState.IR1_DETECTED ∧
    c1Tick1.stateTime = 100 ∧
    c1Tick2.currentState = SensorState.IDLE ∧
    c1Tick2.personCount = 1 ∧
    c1Tick3.currentState = SensorState.IDLE ∧
    c1Tick3.personCount = 1 ∧
    c1Tick4.currentState = SensorState.IR2_DETECTED ∧
    c1Tick4.stateTime = 130 := by decide
